import Mathlib

/-!
# Inventory ledger and time-travel projection: verification development

Shallow embedding of the inventory subsystem of an append-only inventory
management API (Express + immudb).  The embedded operations are:

* `recordTransaction` — `POST /api/inventory/transaction`
  (src/routes/inventory-routes.js, transaction handler);
* `getHistory` — `GET /api/inventory/history/:sku` (same file);
* `addProduct` — `POST /api/products` (product routes);
* `getProductDetails` — `GET /api/products/:sku` (same file);
* `timeTravel` — `GET /api/inventory/time-travel/:sku` (server.js).

Modelling conventions:

* JavaScript numbers are embedded as `ℚ` (all values the handlers compute
  with are exactly representable rationals).
* ISO-8601 timestamp strings ("YYYY-MM-DDTHH:mm:ss.sssZ") are embedded as
  `ℕ` (milliseconds).  For strings of this fixed format, the code's
  lexicographic string comparison and its `new Date(...)` numeric
  comparison both coincide with the order on `ℕ`.
* The storage engine is an external collaborator (put/get/scan over a
  key-value space).  Keys built by the handlers are `"product:" ++ sku`
  and `"transaction:" ++ uuid`; the two prefix regions are disjoint, so
  keys are embedded as the inductive `StoreKey`.  A key-value store state
  is a `List Entry` in store order; `get` returns the latest write at a
  key and `scan` with seek key `"transaction:"` and a limit returns at
  most `limit` entries of the transaction key region.
* The `inventory_transactions` document collection (used by the
  transaction and history handlers through `collectionClient`) is a
  separate store; its state is a `List Txn` in the order `getAll`
  returns rows, and a `getAll` with an sku equality query returns the
  matching rows in that order.  The `products` collection is only ever
  read by these handlers, so it is embedded as the list of SKUs it
  contains.
-/

set_option maxRecDepth 8000

namespace InventoryLedger

/-- A ledger transaction record, as the handlers build and store it
(fields of the JSON object written by `POST /api/inventory/transaction`
and by the seed write of `POST /api/products`). -/
structure Txn where
  transaction_id : String
  sku : String
  txnType : String
  quantity_change : ℚ
  reason : String
  performed_by : String
  timestamp : Nat
  deriving DecidableEq

/-- A product record, as built by `POST /api/products`. -/
structure Product where
  sku : String
  name : String
  description : Option String
  price : ℚ
  initial_quantity : ℚ
  category : Option String
  supplier : Option String
  created_at : Nat
  deriving DecidableEq

/-- Embedding of `String.prototype.toUpperCase()` on the ASCII strings the handlers
compare (`type.toUpperCase()`). -/
def jsToUpper (s : String) : String := ⟨s.data.map Char.toUpper⟩

/-- The `validTypes` array of the transaction handler. -/
def validTypes : List String := ["IN", "OUT", "ADJUSTMENT"]

/-! ## The `inventory_transactions` collection model -/

/-- Embedding of `collectionClient.getAll` with the query `sku EQ <sku>`: the rows of
the collection whose `sku` field equals the given one, in store-return
order. -/
def getAllBySku (txs : List Txn) (sku : String) : List Txn :=
  txs.filter (fun t => t.sku == sku)

/-- The current-stock accumulation of the transaction handler:
`transactionsResponse.rows.forEach(row => { currentStock += tx.quantity_change })`,
starting from `let currentStock = 0`. -/
def currentStockCol (rows : List Txn) : ℚ :=
  rows.foldl (fun acc t => acc + t.quantity_change) 0

/-- Outcome of `POST /api/inventory/transaction`.  `invalidFields` and
`invalidType` are the two 400 validation responses, `notFound` the 404,
`insufficientStock` the 400 insufficient-stock response, `ok` the 201
with the recorded transaction. -/
inductive RecordResult
  | invalidFields
  | invalidType
  | notFound
  | insufficientStock
  | ok (t : Txn)
  deriving DecidableEq

/-- Handler of `POST /api/inventory/transaction`.  Validation: rejects when `!sku`,
`!type`, `quantity == null`, `quantity <= 0` or `!reason`, then when
`type.toUpperCase()` is not in `validTypes`.  Then the product must exist
in the `products` collection, current stock is accumulated over the
`getAll` rows for the SKU, an `OUT` negates the quantity and is rejected
when `currentStock + quantityChange < 0`, and the transaction is appended
(keyed by its generated id, so at the end of store order). -/
def recordTransaction (productsCol : List String) (txs : List Txn)
    (sku ty : String) (quantity : Option ℚ) (reason : String)
    (uuid actor : String) (now : Nat) : RecordResult × List Txn :=
  match quantity with
  | none => (.invalidFields, txs)
  | some q =>
    if sku == "" || ty == "" || decide (q ≤ 0) || reason == "" then
      (.invalidFields, txs)
    else if !(validTypes.contains (jsToUpper ty)) then
      (.invalidType, txs)
    else if !(productsCol.contains sku) then
      (.notFound, txs)
    else
      let currentStock := currentStockCol (getAllBySku txs sku)
      let quantityChange := if jsToUpper ty == "OUT" then -q else q
      if jsToUpper ty == "OUT" && decide (currentStock + (-q) < 0) then
        (.insufficientStock, txs)
      else
        let t : Txn := ⟨uuid, sku, jsToUpper ty, quantityChange, reason, actor, now⟩
        (.ok t, txs ++ [t])

/-- A history row: the stored transaction spread together with its
`running_balance` annotation (the integrity fields of the response are
constants and are not modelled). -/
structure AnnTxn where
  txn : Txn
  running_balance : ℚ
  deriving DecidableEq

/-- The history handler's `.map(...)` pass: each row is annotated with
`runningBalance += tx.quantity_change`, accumulated in store-return
order (the mutable `runningBalance` closure variable starts at 0). -/
def annotateFrom (bal : ℚ) : List Txn → List AnnTxn
  | [] => []
  | t :: ts =>
      let rb := bal + t.quantity_change
      ⟨t, rb⟩ :: annotateFrom rb ts

/-- The history handler's comparator
`(a, b) => new Date(a.timestamp) - new Date(b.timestamp)`: ascending by
timestamp; `Array.prototype.sort` is stable, embedded as a stable merge
sort. -/
def historyLe (a b : AnnTxn) : Bool :=
  decide (a.txn.timestamp ≤ b.txn.timestamp)

/-- Handler of `GET /api/inventory/history/:sku`: 404 (`none`) when the SKU is not
in the `products` collection; otherwise the `getAll` rows for the SKU are
annotated with running balances (in store-return order) and then sorted
by timestamp. -/
def getHistory (productsCol : List String) (txs : List Txn) (sku : String) :
    Option (List AnnTxn) :=
  if productsCol.contains sku then
    some ((annotateFrom 0 (getAllBySku txs sku)).mergeSort historyLe)
  else none

/-! ## The raw key-value store model -/

/-- Keys of the raw key-value store.  The handlers build keys
`"product:" ++ sku` and `"transaction:" ++ uuid`; other subsystems of the
application use further prefixes (`user:`, `audit:`, ...), covered by
`otherKey`.  The prefix regions are disjoint, so the string encoding is
injective and is embedded structurally. -/
inductive StoreKey
  | productKey (sku : String)
  | transactionKey (uuid : String)
  | otherKey (k : String)
  deriving DecidableEq

/-- Whether a key lies in the transaction key region
(`key.startsWith('transaction:')` on the string encoding). -/
def StoreKey.isTxKey : StoreKey → Bool
  | .transactionKey _ => true
  | _ => false

/-- A stored value: the JSON bytes at a key, as they parse.  `malformed`
models bytes `JSON.parse` rejects (such records are skipped by the scan
loops). -/
inductive StoredVal
  | txVal (t : Txn)
  | prodVal (p : Product)
  | malformed
  deriving DecidableEq

/-- One key-value pair of the raw store. -/
structure Entry where
  key : StoreKey
  value : StoredVal
  deriving DecidableEq

/-- The store's `get(key)`: the latest write at the key, if any (the
handlers treat a thrown `key not found` as absence). -/
def kvGet (kv : List Entry) (k : StoreKey) : Option StoredVal :=
  (kv.reverse.find? (fun e => e.key == k)).map (·.value)

/-- The stored product record at `product:<sku>`, if the key is present
(the handlers parse the stored JSON unconditionally; the only writer of
this key stores product records). -/
def getProductRecord (kv : List Entry) (sku : String) : Option Product :=
  match kvGet kv (.productKey sku) with
  | some (.prodVal p) => some p
  | _ => none

/-- The store's `scan({seekKey: 'transaction:', limit, desc: false})`:
at most `limit` entries of the transaction key region, in store order. -/
def scanTxRegion (kv : List Entry) (limit : Nat) : List Entry :=
  (kv.filter (fun e => e.key.isTxKey)).take limit

/-- One step of the scan loops shared by the product-details and
time-travel handlers: an item is kept when its key starts with
`transaction:` and its value parses as a transaction; `JSON.parse`
failures are skipped (`continue`). -/
def parseTxEntry (e : Entry) : Option Txn :=
  match e.key, e.value with
  | .transactionKey _, .txVal t => some t
  | _, _ => none

/-- The scan-loop body applied to all scanned items. -/
def parseTxEntries (items : List Entry) : List Txn :=
  items.filterMap parseTxEntry

/-- The time-travel selection on a list of parsed transactions:
transactions of the SKU with `txTimestamp <= targetTimestamp`. -/
def relevantOf (rows : List Txn) (sku : String) (target : Nat) : List Txn :=
  rows.filter (fun t => t.sku == sku && decide (t.timestamp ≤ target))

/-- The time-travel handler's stock accumulation over a list of parsed
transactions (`historicalStock += tx.quantity_change` starting from 0,
over the selected transactions). -/
def stockFoldUpTo (rows : List Txn) (sku : String) (target : Nat) : ℚ :=
  (relevantOf rows sku target).foldl (fun acc t => acc + t.quantity_change) 0

/-- The transactions the time-travel handler accumulates
(`relevantTransactions`): the selection applied to the scanned
entries. -/
def relevantTxs (kv : List Entry) (sku : String) (target : Nat) : List Txn :=
  relevantOf (parseTxEntries (scanTxRegion kv 1000)) sku target

/-- The time-travel handler's `historicalStock` accumulation. -/
def historicalStock (kv : List Entry) (sku : String) (target : Nat) : ℚ :=
  stockFoldUpTo (parseTxEntries (scanTxRegion kv 1000)) sku target

/-- The time-travel handler's `transactions_included` field
(`relevantTransactions.length`). -/
def transactionsIncluded (kv : List Entry) (sku : String) (target : Nat) : Nat :=
  (relevantTxs kv sku target).length

/-- Outcome of `GET /api/inventory/time-travel/:sku` (the fields of the
200 response the claims concern; the echoed product metadata and the
constant fields are not modelled). -/
inductive TimeTravelResult
  | notFound
  | ok (historical_stock_at_timestamp : ℚ) (transactions_included : Nat)
  deriving DecidableEq

/-- Handler of `GET /api/inventory/time-travel/:sku` after timestamp
validation: 404 when `product:<sku>` is absent, otherwise the historical
stock and count accumulated over the scanned transactions with
`timestamp <= target`. -/
def timeTravel (kv : List Entry) (sku : String) (target : Nat) :
    TimeTravelResult :=
  match getProductRecord kv sku with
  | none => .notFound
  | some _ => .ok (historicalStock kv sku target) (transactionsIncluded kv sku target)

/-- The matching transactions of the product-details handler's scan loop
(no timestamp filter). -/
def productMatches (kv : List Entry) (sku : String) : List Txn :=
  (parseTxEntries (scanTxRegion kv 1000)).filter (fun t => t.sku == sku)

/-- The product-details handler's `currentStock` accumulation. -/
def currentStockScan (kv : List Entry) (sku : String) : ℚ :=
  (productMatches kv sku).foldl (fun acc t => acc + t.quantity_change) 0

/-- Outcome of `GET /api/products/:sku` (the stock-related fields). -/
inductive ProductDetailsResult
  | notFound
  | ok (current_stock : ℚ) (last_transaction_timestamp : Nat)
  deriving DecidableEq

/-- Handler of `GET /api/products/:sku`: 404 when `product:<sku>` is absent,
otherwise the current stock summed over all scanned transactions of the
SKU and the greatest of their timestamps and `product.created_at`. -/
def getProductDetails (kv : List Entry) (sku : String) : ProductDetailsResult :=
  match getProductRecord kv sku with
  | none => .notFound
  | some p =>
      .ok (currentStockScan kv sku)
        ((productMatches kv sku).foldl
          (fun acc t => if acc < t.timestamp then t.timestamp else acc) p.created_at)

/-- Input of `POST /api/products` (request body). -/
structure ProductInput where
  sku : String
  name : String
  description : Option String
  price : Option ℚ
  quantity : Option ℚ
  category : Option String
  supplier : Option String

/-- Outcome of `POST /api/products`: the 400 missing-fields response,
the 409 duplicate response, or the created product and seed
transaction. -/
inductive AddResult
  | missingFields
  | duplicate
  | ok (p : Product) (seed : Txn)
  deriving DecidableEq

/-- Handler of `POST /api/products`.  Validation rejects when `!sku`, `!name`,
`price == null` or `quantity == null`.  `created_at` is read from the
clock (`tCreated`) before the store is touched; the duplicate check reads
`product:<sku>` and answers 409 without writing when it is present;
otherwise the product record and then the seed transaction
(`type: 'IN'`, `reason: 'Initial Stock'`, timestamp from a second, later
clock read `tSeed`) are appended. -/
def addProduct (kv : List Entry) (inp : ProductInput)
    (uuid actor : String) (tCreated tSeed : Nat) : AddResult × List Entry :=
  if inp.sku == "" || inp.name == "" || inp.price.isNone || inp.quantity.isNone then
    (.missingFields, kv)
  else
    match inp.price, inp.quantity with
    | some price, some quantity =>
      let newProduct : Product :=
        ⟨inp.sku, inp.name, inp.description, price, quantity,
          inp.category, inp.supplier, tCreated⟩
      match kvGet kv (.productKey inp.sku) with
      | some _ => (.duplicate, kv)
      | none =>
        let seed : Txn := ⟨uuid, inp.sku, "IN", quantity, "Initial Stock", actor, tSeed⟩
        (.ok newProduct seed,
          kv ++ [⟨.productKey inp.sku, .prodVal newProduct⟩,
                 ⟨.transactionKey uuid, .txVal seed⟩])
    | _, _ => (.missingFields, kv)

/-- A concrete transaction-keyspace entry (used to instantiate the
scan-limit statements). -/
def entW : Entry := ⟨.transactionKey "t0", .txVal ⟨"t0", "SKU-1", "IN", 1, "r", "u", 0⟩⟩

/-- A second concrete transaction-keyspace entry, stored after the first
1000 scanned keys in the scan-limit statements. -/
def entW2 : Entry := ⟨.transactionKey "t1", .txVal ⟨"t1", "SKU-1", "IN", 1, "r", "u", 0⟩⟩

/-- The `i`-th transaction of the scan-limit counterexample ledger:
distinct ids, all for `SKU-1`, each with `quantity_change = 1` at
timestamp 0. -/
def cexTx (i : Nat) : Txn := ⟨toString i, "SKU-1", "IN", 1, "r", "u", 0⟩

/-- The stored entry of the `i`-th counterexample transaction. -/
def cexEntry (i : Nat) : Entry := ⟨.transactionKey (toString i), .txVal (cexTx i)⟩

/-- The product record of the scan-limit counterexample. -/
def cexProduct : Product := ⟨"SKU-1", "W", none, 1, 0, none, none, 0⟩

/-- A ledger holding 1001 distinct recorded transactions of `SKU-1`
(followed by the product record): one more transaction than the scan
limit returns. -/
def cexLedger : List Entry :=
  (List.range 1001).map cexEntry ++ [⟨.productKey "SKU-1", .prodVal cexProduct⟩]

/-! ## Specification-side definitions (for refinement comparisons) -/

/-- Modelled from the spec: `stock(sku, T) = sum(quantity_change for all
transactions of sku with timestamp <= T)` — the sum over *all* recorded
transactions of the SKU in the ledger, with no scan limit. -/
def specStockAt (kv : List Entry) (sku : String) (t : Nat) : ℚ :=
  (((parseTxEntries kv).filter
      (fun x => x.sku == sku && decide (x.timestamp ≤ t))).map
    (·.quantity_change)).sum

/-- Modelled from the spec: running balances as the prefix sums of
`quantity_change` accumulated in the order of the given list. -/
def specRunningBalances (bal : ℚ) : List ℚ → List ℚ
  | [] => []
  | q :: qs => (bal + q) :: specRunningBalances (bal + q) qs

/-! ## Helper lemmas -/

theorem foldl_add_eq_sum (l : List Txn) (a : ℚ) :
    l.foldl (fun acc t => acc + t.quantity_change) a =
      a + (l.map (·.quantity_change)).sum := by
  induction l generalizing a with
  | nil => simp
  | cons t ts ih => rw [List.foldl_cons, ih, List.map_cons, List.sum_cons, add_assoc]

theorem currentStockCol_append_single (l : List Txn) (t : Txn) :
    currentStockCol (l ++ [t]) = currentStockCol l + t.quantity_change := by
  simp [currentStockCol, List.foldl_append]

theorem getAllBySku_append_single_self (txs : List Txn) (t : Txn) (sku : String)
    (ht : t.sku = sku) :
    getAllBySku (txs ++ [t]) sku = getAllBySku txs sku ++ [t] := by
  simp [getAllBySku, List.filter_append, ht]

theorem jsToUpper_empty_iff (ty : String) (h : jsToUpper ty ∈ validTypes) : ty ≠ "" := by
  intro hty
  subst hty
  revert h
  decide

/-- The success path of `recordTransaction`: a validated call on an
existing product whose insufficiency check (if any) passes appends
exactly one transaction, with `quantity_change = -q` for `OUT` and `= q`
otherwise. -/
theorem recordTransaction_ok (productsCol : List String) (txs : List Txn)
    (sku ty reason uuid actor : String) (q : ℚ) (now : Nat)
    (hsku : sku ≠ "") (hreason : reason ≠ "") (hq : 0 < q)
    (hvalid : jsToUpper ty ∈ validTypes)
    (hprod : sku ∈ productsCol)
    (hnoFail : jsToUpper ty = "OUT" →
      ¬ (currentStockCol (getAllBySku txs sku) + (-q) < 0)) :
    recordTransaction productsCol txs sku ty (some q) reason uuid actor now =
      (.ok ⟨uuid, sku, jsToUpper ty,
            if jsToUpper ty == "OUT" then -q else q, reason, actor, now⟩,
       txs ++ [⟨uuid, sku, jsToUpper ty,
            if jsToUpper ty == "OUT" then -q else q, reason, actor, now⟩]) := by
  have hty : ty ≠ "" := jsToUpper_empty_iff ty hvalid
  simp only [recordTransaction]
  rw [if_neg, if_neg, if_neg, if_neg]
  · simp only [Bool.and_eq_true, beq_iff_eq, decide_eq_true_eq, not_and]
    intro hOut
    exact hnoFail hOut
  · simp [hprod]
  · simp [hvalid]
  · simp only [Bool.or_eq_true, beq_iff_eq, decide_eq_true_eq, not_or]
    exact ⟨⟨⟨hsku, hty⟩, not_le.mpr hq⟩, hreason⟩

/-! ## Claim C2 -/

/-- C2: for every SKU whose current projected stock is `S`, a
`recordTransaction` call with `type = OUT` and quantity `q > S` fails
with the insufficient-stock error, and no transaction is appended: the
collection state is returned unchanged, so every SKU's projected stock
is unchanged after the rejected call. -/
theorem out_exceeding_stock_rejected (productsCol : List String) (txs : List Txn)
    (sku ty reason uuid actor : String) (q : ℚ) (now : Nat)
    (hsku : sku ≠ "") (hreason : reason ≠ "") (hq : 0 < q)
    (hOut : jsToUpper ty = "OUT")
    (hprod : sku ∈ productsCol)
    (hins : currentStockCol (getAllBySku txs sku) < q) :
    recordTransaction productsCol txs sku ty (some q) reason uuid actor now =
      (.insufficientStock, txs) ∧
    ∀ sku', currentStockCol (getAllBySku
        (recordTransaction productsCol txs sku ty (some q) reason uuid actor now).2 sku') =
      currentStockCol (getAllBySku txs sku') := by
  have hty : ty ≠ "" := jsToUpper_empty_iff ty (by rw [hOut]; decide)
  have hmain : recordTransaction productsCol txs sku ty (some q) reason uuid actor now =
      (.insufficientStock, txs) := by
    simp only [recordTransaction]
    rw [if_neg, if_neg, if_neg, if_pos]
    · simp only [hOut, beq_self_eq_true, Bool.true_and, decide_eq_true_eq]
      linarith
    · simp [hprod]
    · simp [validTypes, hOut]
    · simp only [Bool.or_eq_true, beq_iff_eq, decide_eq_true_eq, not_or]
      exact ⟨⟨⟨hsku, hty⟩, not_le.mpr hq⟩, hreason⟩
  refine ⟨hmain, fun sku' => ?_⟩
  rw [hmain]

/-- Witness for C2: stock of `SKU-1` is 5, an `OUT` of 7 is rejected and
the ledger is unchanged. -/
theorem out_exceeding_stock_rejected_witness :
    currentStockCol (getAllBySku [⟨"t1", "SKU-1", "IN", 5, "seed", "api", 1⟩] "SKU-1") < 7 ∧
    recordTransaction ["SKU-1"] [⟨"t1", "SKU-1", "IN", 5, "seed", "api", 1⟩]
        "SKU-1" "out" (some 7) "sale" "t2" "api" 2 =
      (.insufficientStock, [⟨"t1", "SKU-1", "IN", 5, "seed", "api", 1⟩]) :=
  ⟨by norm_num [currentStockCol, getAllBySku],
   (out_exceeding_stock_rejected _ _ _ _ _ _ _ _ _
      (by decide) (by decide) (by norm_num) (by decide) (by decide)
      (by norm_num [currentStockCol, getAllBySku])).1⟩

/-! ## Claim C4 -/

/-- C4: a validated `recordTransaction` with `type = ADJUSTMENT` and
quantity `q` appends a transaction whose `quantity_change` is the raw
`+q`, exactly as a `type = IN` call does; since validation requires
`0 < q`, an `ADJUSTMENT` can only ever produce a positive
`quantity_change`. -/
theorem adjustment_treated_as_in (productsCol : List String) (txs : List Txn)
    (sku tyA tyI reason uuid actor : String) (q : ℚ) (now : Nat)
    (hsku : sku ≠ "") (hreason : reason ≠ "") (hq : 0 < q)
    (hA : jsToUpper tyA = "ADJUSTMENT") (hI : jsToUpper tyI = "IN")
    (hprod : sku ∈ productsCol) :
    recordTransaction productsCol txs sku tyA (some q) reason uuid actor now =
      (.ok ⟨uuid, sku, "ADJUSTMENT", q, reason, actor, now⟩,
       txs ++ [⟨uuid, sku, "ADJUSTMENT", q, reason, actor, now⟩]) ∧
    recordTransaction productsCol txs sku tyI (some q) reason uuid actor now =
      (.ok ⟨uuid, sku, "IN", q, reason, actor, now⟩,
       txs ++ [⟨uuid, sku, "IN", q, reason, actor, now⟩]) ∧
    (0 : ℚ) < q := by
  refine ⟨?_, ?_, hq⟩
  · have h := recordTransaction_ok productsCol txs sku tyA reason uuid actor q now
      hsku hreason hq (by rw [hA]; decide) hprod (by rw [hA]; intro h; exact absurd h (by decide))
    rw [hA] at h
    simpa using h
  · have h := recordTransaction_ok productsCol txs sku tyI reason uuid actor q now
      hsku hreason hq (by rw [hI]; decide) hprod (by rw [hI]; intro h; exact absurd h (by decide))
    rw [hI] at h
    simpa using h

/-- Witness for C4: an `ADJUSTMENT` of 4 (lower-case request type) and an
`IN` of 4 both append `quantity_change = +4`. -/
theorem adjustment_treated_as_in_witness :
    recordTransaction ["SKU-1"] [] "SKU-1" "adjustment" (some 4) "recount" "t9" "api" 3 =
      (.ok ⟨"t9", "SKU-1", "ADJUSTMENT", 4, "recount", "api", 3⟩,
       [⟨"t9", "SKU-1", "ADJUSTMENT", 4, "recount", "api", 3⟩]) ∧
    recordTransaction ["SKU-1"] [] "SKU-1" "in" (some 4) "recount" "t9" "api" 3 =
      (.ok ⟨"t9", "SKU-1", "IN", 4, "recount", "api", 3⟩,
       [⟨"t9", "SKU-1", "IN", 4, "recount", "api", 3⟩]) := by
  have h := adjustment_treated_as_in ["SKU-1"] [] "SKU-1" "adjustment" "in"
    "recount" "t9" "api" 4 3 (by decide) (by decide) (by norm_num)
    (by decide) (by decide) (by decide)
  exact ⟨by simpa using h.1, by simpa using h.2.1⟩

/-! ## Claim C10 -/

/-- C10: the insufficiency check is strict.  With current projected stock
`S > 0`, an `OUT` of exactly `S` succeeds, appends a transaction with
`quantity_change = -S`, and brings the projected stock to exactly 0. -/
theorem out_exact_stock_succeeds (productsCol : List String) (txs : List Txn)
    (sku ty reason uuid actor : String) (S : ℚ) (now : Nat)
    (hsku : sku ≠ "") (hreason : reason ≠ "")
    (hOut : jsToUpper ty = "OUT")
    (hprod : sku ∈ productsCol)
    (hS : currentStockCol (getAllBySku txs sku) = S) (hSpos : 0 < S) :
    recordTransaction productsCol txs sku ty (some S) reason uuid actor now =
      (.ok ⟨uuid, sku, "OUT", -S, reason, actor, now⟩,
       txs ++ [⟨uuid, sku, "OUT", -S, reason, actor, now⟩]) ∧
    currentStockCol (getAllBySku
        (txs ++ [⟨uuid, sku, "OUT", -S, reason, actor, now⟩]) sku) = 0 := by
  constructor
  · have h := recordTransaction_ok productsCol txs sku ty reason uuid actor S now
      hsku hreason hSpos (by rw [hOut]; decide) hprod
      (fun _ => by rw [hS]; simp)
    rw [hOut] at h
    simpa using h
  · rw [getAllBySku_append_single_self _ _ _ rfl, currentStockCol_append_single, hS]
    simp

/-- Witness for C10: stock of `SKU-1` is 5; an `OUT` of exactly 5
succeeds and leaves stock 0. -/
theorem out_exact_stock_succeeds_witness :
    currentStockCol (getAllBySku [⟨"t1", "SKU-1", "IN", 5, "seed", "api", 1⟩] "SKU-1") = 5 ∧
    recordTransaction ["SKU-1"] [⟨"t1", "SKU-1", "IN", 5, "seed", "api", 1⟩]
        "SKU-1" "OUT" (some 5) "sale" "t2" "api" 2 =
      (.ok ⟨"t2", "SKU-1", "OUT", -5, "sale", "api", 2⟩,
       [⟨"t1", "SKU-1", "IN", 5, "seed", "api", 1⟩,
        ⟨"t2", "SKU-1", "OUT", -5, "sale", "api", 2⟩]) ∧
    currentStockCol (getAllBySku
        [⟨"t1", "SKU-1", "IN", 5, "seed", "api", 1⟩,
         ⟨"t2", "SKU-1", "OUT", -5, "sale", "api", 2⟩] "SKU-1") = 0 := by
  have h := out_exact_stock_succeeds ["SKU-1"]
    [⟨"t1", "SKU-1", "IN", 5, "seed", "api", 1⟩] "SKU-1" "OUT" "sale" "t2" "api" 5 2
    (by decide) (by decide) (by decide) (by decide)
    (by norm_num [currentStockCol, getAllBySku]) (by norm_num)
  exact ⟨by norm_num [currentStockCol, getAllBySku], by simpa using h.1, by simpa using h.2⟩

/-! ## Claim C5 -/

/-- C5 (amended): `recordTransaction` fails with a validation error (one
of the two 400 validation responses), and appends nothing, exactly when
`sku` is empty, `reason` is empty, `quantity` is missing or `≤ 0`
(integrality of `quantity` is *not* checked), `type` is empty, or
`type` is not in `{IN, OUT, ADJUSTMENT}` after upper-casing. -/
theorem validation_rejects_iff (productsCol : List String) (txs : List Txn)
    (sku ty : String) (quantity : Option ℚ) (reason uuid actor : String) (now : Nat) :
    (((recordTransaction productsCol txs sku ty quantity reason uuid actor now).1 =
        .invalidFields ∨
      (recordTransaction productsCol txs sku ty quantity reason uuid actor now).1 =
        .invalidType) ↔
      (sku = "" ∨ ty = "" ∨ quantity = none ∨
        (∃ q, quantity = some q ∧ q ≤ 0) ∨ reason = "" ∨
        jsToUpper ty ∉ validTypes)) ∧
    (((recordTransaction productsCol txs sku ty quantity reason uuid actor now).1 =
        .invalidFields ∨
      (recordTransaction productsCol txs sku ty quantity reason uuid actor now).1 =
        .invalidType) →
      (recordTransaction productsCol txs sku ty quantity reason uuid actor now).2 = txs) := by
  match quantity with
  | none =>
    refine ⟨?_, fun _ => rfl⟩
    simp [recordTransaction]
  | some q =>
    by_cases h1 : (sku == "" || ty == "" || decide (q ≤ 0) || reason == "") = true
    · have hr : recordTransaction productsCol txs sku ty (some q) reason uuid actor now =
          (.invalidFields, txs) := by
        simp only [recordTransaction, if_pos h1]
      rw [hr]
      simp only [Bool.or_eq_true, beq_iff_eq, decide_eq_true_eq] at h1
      refine ⟨⟨fun _ => ?_, fun _ => Or.inl rfl⟩, fun _ => rfl⟩
      rcases h1 with ((h | h) | h) | h
      · exact Or.inl h
      · exact Or.inr (Or.inl h)
      · exact Or.inr (Or.inr (Or.inr (Or.inl ⟨q, rfl, h⟩)))
      · exact Or.inr (Or.inr (Or.inr (Or.inr (Or.inl h))))
    · by_cases h2 : validTypes.contains (jsToUpper ty) = true
      · have hnotval : (recordTransaction productsCol txs sku ty (some q) reason uuid actor now).1 =
              .notFound ∨
            (recordTransaction productsCol txs sku ty (some q) reason uuid actor now).1 =
              .insufficientStock ∨
            ∃ t, (recordTransaction productsCol txs sku ty (some q) reason uuid actor now).1 =
              .ok t := by
          simp only [recordTransaction, if_neg h1]
          rw [if_neg (by simpa using h2)]
          split_ifs with h3 h4 <;> simp
        simp only [Bool.or_eq_true, beq_iff_eq, decide_eq_true_eq] at h1
        push_neg at h1
        obtain ⟨⟨⟨hsku, hty⟩, hq⟩, hreason⟩ := h1
        constructor
        · constructor
          · intro hval
            rcases hnotval with h | h | ⟨t, h⟩ <;>
              rcases hval with hv | hv <;> rw [h] at hv <;> exact absurd hv (by simp)
          · intro hrhs
            rcases hrhs with h | h | h | ⟨q', hq', hle⟩ | h | h
            · exact absurd h hsku
            · exact absurd h hty
            · exact absurd h (by simp)
            · rw [Option.some_inj] at hq'
              have hqle : q ≤ 0 := by rw [hq']; exact hle
              exact absurd hqle (not_le.mpr hq)
            · exact absurd h hreason
            · exact (h (by simpa using h2)).elim
        · intro hval
          rcases hnotval with h | h | ⟨t, h⟩ <;>
            rcases hval with hv | hv <;> rw [h] at hv <;> exact absurd hv (by simp)
      · have hr : recordTransaction productsCol txs sku ty (some q) reason uuid actor now =
            (.invalidType, txs) := by
          simp only [recordTransaction, if_neg h1]
          rw [if_pos]
          simpa using h2
        rw [hr]
        refine ⟨⟨fun _ => ?_, fun _ => Or.inr rfl⟩, fun _ => rfl⟩
        exact Or.inr (Or.inr (Or.inr (Or.inr (Or.inr
          (fun hmem => h2 (by simpa using hmem))))))

/-- Witness for C5 (amended): a call with empty `sku` is answered with a
validation error and nothing is appended. -/
theorem validation_rejects_iff_witness :
    ((recordTransaction ["SKU-1"] [] "" "IN" (some 4) "r" "t1" "api" 7).1 =
        .invalidFields ∨
      (recordTransaction ["SKU-1"] [] "" "IN" (some 4) "r" "t1" "api" 7).1 =
        .invalidType) ∧
    (recordTransaction ["SKU-1"] [] "" "IN" (some 4) "r" "t1" "api" 7).2 = [] := by
  have h := validation_rejects_iff ["SKU-1"] [] "" "IN" (some 4) "r" "t1" "api" 7
  have hval := h.1.mpr (Or.inl rfl)
  exact ⟨hval, h.2 hval⟩

/-- Counterexample to C5 as stated: `quantity = 5/2` is not a positive
integer, yet validation accepts it — the call succeeds and appends a
transaction with `quantity_change = 5/2` instead of failing with a
validation error. -/
theorem validation_accepts_noninteger_quantity_cex :
    recordTransaction ["SKU-1"] [] "SKU-1" "IN" (some (5/2)) "restock" "t1" "api" 7 =
      (.ok ⟨"t1", "SKU-1", "IN", 5/2, "restock", "api", 7⟩,
       [⟨"t1", "SKU-1", "IN", 5/2, "restock", "api", 7⟩]) ∧
    ¬ ∃ n : ℤ, ((5 : ℚ)/2) = n := by
  constructor
  · have h := recordTransaction_ok ["SKU-1"] [] "SKU-1" "IN" "restock" "t1" "api"
      (5/2) 7 (by decide) (by decide) (by norm_num) (by decide) (by decide)
      (by intro hOut; exact absurd hOut (by decide))
    simpa using h
  · rintro ⟨n, hn⟩
    have h2 : (2 : ℚ) < (n : ℚ) := by rw [← hn]; norm_num
    have h3 : (n : ℚ) < 3 := by rw [← hn]; norm_num
    have h2' : (2 : ℤ) < n := by exact_mod_cast h2
    have h3' : n < 3 := by exact_mod_cast h3
    omega

/-! ## Claim C7 -/

/-- C7: for a SKU's transaction set (every element carries the SKU) and
any time `t` at or after every transaction timestamp, the projected
stock at `t` equals the sum of all `quantity_change` values, and both
this projection and the current-stock fold are invariant under
permuting the order in which the transactions are supplied. -/
theorem final_stock_is_total_sum_perm_invariant (rows rows' : List Txn)
    (sku : String) (t : Nat)
    (hsku : ∀ x ∈ rows, x.sku = sku) (ht : ∀ x ∈ rows, x.timestamp ≤ t)
    (hperm : rows.Perm rows') :
    stockFoldUpTo rows sku t = (rows.map (·.quantity_change)).sum ∧
    stockFoldUpTo rows' sku t = stockFoldUpTo rows sku t ∧
    currentStockCol rows' = currentStockCol rows := by
  have hfilter : ∀ l : List Txn, (∀ x ∈ l, x.sku = sku) → (∀ x ∈ l, x.timestamp ≤ t) →
      relevantOf l sku t = l := by
    intro l h1 h2
    refine List.filter_eq_self.mpr (fun a ha => ?_)
    simp [h1 a ha, h2 a ha]
  have hsku' : ∀ x ∈ rows', x.sku = sku := fun x hx => hsku x (hperm.symm.subset hx)
  have ht' : ∀ x ∈ rows', x.timestamp ≤ t := fun x hx => ht x (hperm.symm.subset hx)
  have hsum : (rows'.map (·.quantity_change)).sum = (rows.map (·.quantity_change)).sum :=
    (hperm.map (·.quantity_change)).sum_eq.symm
  have h1 : stockFoldUpTo rows sku t = (rows.map (·.quantity_change)).sum := by
    rw [stockFoldUpTo, hfilter rows hsku ht, foldl_add_eq_sum, zero_add]
  have h1' : stockFoldUpTo rows' sku t = (rows'.map (·.quantity_change)).sum := by
    rw [stockFoldUpTo, hfilter rows' hsku' ht', foldl_add_eq_sum, zero_add]
  refine ⟨h1, by rw [h1, h1', hsum], ?_⟩
  rw [currentStockCol, currentStockCol, foldl_add_eq_sum, foldl_add_eq_sum, hsum]

/-- Witness for C7: two transactions of `SKU-1` (quantities 2 and 3)
supplied in both orders; the final stock at `t = 9` is their total sum
either way. -/
theorem final_stock_is_total_sum_perm_invariant_witness :
    stockFoldUpTo [(⟨"a", "SKU-1", "IN", 2, "r", "u", 1⟩ : Txn),
        ⟨"b", "SKU-1", "IN", 3, "r", "u", 2⟩] "SKU-1" 9 =
      ([(⟨"a", "SKU-1", "IN", 2, "r", "u", 1⟩ : Txn),
        ⟨"b", "SKU-1", "IN", 3, "r", "u", 2⟩].map (·.quantity_change)).sum ∧
    stockFoldUpTo [(⟨"b", "SKU-1", "IN", 3, "r", "u", 2⟩ : Txn),
        ⟨"a", "SKU-1", "IN", 2, "r", "u", 1⟩] "SKU-1" 9 =
      stockFoldUpTo [(⟨"a", "SKU-1", "IN", 2, "r", "u", 1⟩ : Txn),
        ⟨"b", "SKU-1", "IN", 3, "r", "u", 2⟩] "SKU-1" 9 := by
  have h := final_stock_is_total_sum_perm_invariant
    [(⟨"a", "SKU-1", "IN", 2, "r", "u", 1⟩ : Txn), ⟨"b", "SKU-1", "IN", 3, "r", "u", 2⟩]
    [(⟨"b", "SKU-1", "IN", 3, "r", "u", 2⟩ : Txn), ⟨"a", "SKU-1", "IN", 2, "r", "u", 1⟩]
    "SKU-1" 9 (by decide) (by decide)
    (List.Perm.swap (⟨"b", "SKU-1", "IN", 3, "r", "u", 2⟩ : Txn)
      ⟨"a", "SKU-1", "IN", 2, "r", "u", 1⟩ [])
  exact ⟨h.1, h.2.1⟩

/-! ## Claim C3 -/

theorem annotateFrom_map_txn (bal : ℚ) (l : List Txn) :
    (annotateFrom bal l).map (·.txn) = l := by
  induction l generalizing bal with
  | nil => rfl
  | cons t ts ih => simp [annotateFrom, ih]

theorem annotateFrom_map_txn_qc (bal : ℚ) (l : List Txn) :
    (annotateFrom bal l).map (·.txn.quantity_change) = l.map (·.quantity_change) := by
  induction l generalizing bal with
  | nil => rfl
  | cons t ts ih => simp [annotateFrom, ih]

theorem annotateFrom_map_rb (bal : ℚ) (l : List Txn) :
    (annotateFrom bal l).map (·.running_balance) =
      specRunningBalances bal (l.map (·.quantity_change)) := by
  induction l generalizing bal with
  | nil => rfl
  | cons t ts ih => simp [annotateFrom, specRunningBalances, ih]

/-- C3 (amended): `getHistory` sorts only by timestamp (stable, no
transaction-id tie-break) and computes each `running_balance` as a
prefix sum in store-return order *before* sorting.  When the store
returns the SKU's rows already in chronological order, the sort is the
identity and the returned running balances do equal the prefix sums of
`quantity_change` over the returned (sorted) list. -/
theorem getHistory_chronological_rows_correct (productsCol : List String)
    (txs : List Txn) (sku : String)
    (hprod : sku ∈ productsCol)
    (hchrono : (getAllBySku txs sku).Pairwise (fun a b => a.timestamp ≤ b.timestamp)) :
    getHistory productsCol txs sku = some (annotateFrom 0 (getAllBySku txs sku)) ∧
    (annotateFrom 0 (getAllBySku txs sku)).Pairwise
      (fun a b => a.txn.timestamp ≤ b.txn.timestamp) ∧
    (annotateFrom 0 (getAllBySku txs sku)).map (·.running_balance) =
      specRunningBalances 0
        ((annotateFrom 0 (getAllBySku txs sku)).map (·.txn.quantity_change)) := by
  have hpairt : (annotateFrom 0 (getAllBySku txs sku)).Pairwise
      (fun a b => a.txn.timestamp ≤ b.txn.timestamp) := by
    have hmap := annotateFrom_map_txn 0 (getAllBySku txs sku)
    rw [← hmap, List.pairwise_map] at hchrono
    exact hchrono
  have hpair : (annotateFrom 0 (getAllBySku txs sku)).Pairwise
      (fun a b => historyLe a b = true) :=
    hpairt.imp (fun h => by simpa [historyLe] using h)
  have hsorted : (annotateFrom 0 (getAllBySku txs sku)).mergeSort historyLe =
      annotateFrom 0 (getAllBySku txs sku) := List.mergeSort_of_sorted hpair
  refine ⟨?_, hpairt, ?_⟩
  · rw [getHistory, if_pos (by simpa using hprod), hsorted]
  · rw [annotateFrom_map_rb, annotateFrom_map_txn_qc]

/-- Witness for C3: two chronological rows (quantities 3 then 5); the
history is returned in order with running balances 3 and 8, matching the
prefix sums. -/
theorem getHistory_chronological_rows_correct_witness :
    getHistory ["SKU-1"]
        [(⟨"b-uuid", "SKU-1", "IN", 3, "r", "u", 1⟩ : Txn),
         ⟨"a-uuid", "SKU-1", "IN", 5, "r", "u", 2⟩] "SKU-1" =
      some (annotateFrom 0 (getAllBySku
        [(⟨"b-uuid", "SKU-1", "IN", 3, "r", "u", 1⟩ : Txn),
         ⟨"a-uuid", "SKU-1", "IN", 5, "r", "u", 2⟩] "SKU-1")) ∧
    (annotateFrom 0 (getAllBySku
        [(⟨"b-uuid", "SKU-1", "IN", 3, "r", "u", 1⟩ : Txn),
         ⟨"a-uuid", "SKU-1", "IN", 5, "r", "u", 2⟩] "SKU-1")).map (·.running_balance) =
      specRunningBalances 0
        ((annotateFrom 0 (getAllBySku
          [(⟨"b-uuid", "SKU-1", "IN", 3, "r", "u", 1⟩ : Txn),
           ⟨"a-uuid", "SKU-1", "IN", 5, "r", "u", 2⟩] "SKU-1")).map (·.txn.quantity_change)) := by
  have h := getHistory_chronological_rows_correct ["SKU-1"]
    [(⟨"b-uuid", "SKU-1", "IN", 3, "r", "u", 1⟩ : Txn),
     ⟨"a-uuid", "SKU-1", "IN", 5, "r", "u", 2⟩] "SKU-1"
    (by decide) (by decide)
  exact ⟨h.1, h.2.2⟩

/-- Counterexample to C3 as stated: the store returns the two rows of
`SKU-1` in non-chronological order (the later transaction first).  The
history handler annotates running balances in that order (5 then 8) and
only then sorts, so the returned sorted list carries balances [8, 5],
not the prefix sums [3, 8] of the sorted order that the claim
requires. -/
theorem getHistory_running_balance_cex :
    getHistory ["SKU-1"]
        [(⟨"a-uuid", "SKU-1", "IN", 5, "r", "u", 2⟩ : Txn),
         ⟨"b-uuid", "SKU-1", "IN", 3, "r", "u", 1⟩] "SKU-1" =
      some [⟨⟨"b-uuid", "SKU-1", "IN", 3, "r", "u", 1⟩, 8⟩,
            ⟨⟨"a-uuid", "SKU-1", "IN", 5, "r", "u", 2⟩, 5⟩] ∧
    ¬ ([(⟨⟨"b-uuid", "SKU-1", "IN", 3, "r", "u", 1⟩, 8⟩ : AnnTxn),
        ⟨⟨"a-uuid", "SKU-1", "IN", 5, "r", "u", 2⟩, 5⟩].map (·.running_balance) =
      specRunningBalances 0
        ([(⟨⟨"b-uuid", "SKU-1", "IN", 3, "r", "u", 1⟩, 8⟩ : AnnTxn),
          ⟨⟨"a-uuid", "SKU-1", "IN", 5, "r", "u", 2⟩, 5⟩].map (·.txn.quantity_change))) := by
  constructor
  · norm_num [getHistory, getAllBySku, annotateFrom, List.mergeSort, historyLe]
  · norm_num [specRunningBalances]

/-! ## Claim C9 -/

theorem scanTxRegion_append_of_full (kv extra : List Entry)
    (h : 1000 ≤ (kv.filter (fun e => e.key.isTxKey)).length) :
    scanTxRegion (kv ++ extra) 1000 = scanTxRegion kv 1000 := by
  rw [scanTxRegion, scanTxRegion, List.filter_append, List.take_append_of_le_length h]

/-- C9: the current-stock and time-travel projections read at most the
first 1000 entries of the transaction keyspace scan: once the ledger
already holds 1000 transaction entries, any further appended entries are
silently excluded from the historical stock, from
`transactions_included`, and from the current stock. -/
theorem scan_reads_at_most_1000 (kv extra : List Entry) (sku : String) (t : Nat)
    (hfull : 1000 ≤ (kv.filter (fun e => e.key.isTxKey)).length) :
    historicalStock (kv ++ extra) sku t = historicalStock kv sku t ∧
    transactionsIncluded (kv ++ extra) sku t = transactionsIncluded kv sku t ∧
    currentStockScan (kv ++ extra) sku = currentStockScan kv sku := by
  have hscan := scanTxRegion_append_of_full kv extra hfull
  exact ⟨by rw [historicalStock, hscan, historicalStock],
         by rw [transactionsIncluded, relevantTxs, hscan, transactionsIncluded, relevantTxs],
         by rw [currentStockScan, productMatches, hscan, currentStockScan, productMatches]⟩

/-- Witness for C9: a ledger of exactly 1000 transaction entries; a
further matching transaction appended after them changes neither the
historical stock nor the included-transaction count. -/
theorem scan_reads_at_most_1000_witness :
    1000 ≤ ((List.replicate 1000 entW).filter (fun e => e.key.isTxKey)).length ∧
    historicalStock (List.replicate 1000 entW ++ [entW2]) "SKU-1" 9 =
      historicalStock (List.replicate 1000 entW) "SKU-1" 9 := by
  have hfull : 1000 ≤ ((List.replicate 1000 entW).filter (fun e => e.key.isTxKey)).length := by
    have hf : (List.replicate 1000 entW).filter (fun e => e.key.isTxKey) =
        List.replicate 1000 entW :=
      List.filter_eq_self.mpr (fun a ha => by rw [List.eq_of_mem_replicate ha]; rfl)
    rw [hf, List.length_replicate]
  exact ⟨hfull, (scan_reads_at_most_1000 _ _ "SKU-1" 9 hfull).1⟩

/-! ## Claim C1 -/

theorem parseTxEntry_eq_none_of_not_txKey (e : Entry) (h : e.key.isTxKey = false) :
    parseTxEntry e = none := by
  rcases e with ⟨k, v⟩
  cases k with
  | transactionKey u => simp [StoreKey.isTxKey] at h
  | productKey s => cases v <;> rfl
  | otherKey s => cases v <;> rfl

theorem parseTxEntries_filter_isTxKey (kv : List Entry) :
    parseTxEntries (kv.filter (fun e => e.key.isTxKey)) = parseTxEntries kv := by
  induction kv with
  | nil => rfl
  | cons e es ih =>
    simp only [parseTxEntries] at ih ⊢
    rw [List.filter_cons]
    by_cases h : e.key.isTxKey = true
    · rw [if_pos h, List.filterMap_cons, List.filterMap_cons, ih]
    · rw [if_neg h, ih, List.filterMap_cons,
        parseTxEntry_eq_none_of_not_txKey e (by simpa using h)]

theorem parseTxEntries_append (l₁ l₂ : List Entry) :
    parseTxEntries (l₁ ++ l₂) = parseTxEntries l₁ ++ parseTxEntries l₂ :=
  List.filterMap_append l₁ l₂ parseTxEntry

/-- C1 (amended): when the SKU's transactions all lie within the scan
limit (at most 1000 transaction entries in the ledger), the time-travel
stock at every cutoff `T` equals the spec's sum over all of the SKU's
recorded transactions with `timestamp ≤ T`; and the current-stock figure
equals that sum at `T = now`, provided no stored transaction of the SKU
carries a timestamp after `now`. -/
theorem projection_eq_spec_within_scan_limit (kv : List Entry) (sku : String)
    (t now : Nat)
    (hlimit : (kv.filter (fun e => e.key.isTxKey)).length ≤ 1000)
    (hts : ∀ x ∈ parseTxEntries kv, x.sku = sku → x.timestamp ≤ now) :
    historicalStock kv sku t = specStockAt kv sku t ∧
    currentStockScan kv sku = specStockAt kv sku now := by
  have hscan : parseTxEntries (scanTxRegion kv 1000) = parseTxEntries kv := by
    rw [scanTxRegion, List.take_of_length_le hlimit, parseTxEntries_filter_isTxKey]
  constructor
  · rw [historicalStock, stockFoldUpTo, relevantOf, hscan, foldl_add_eq_sum, zero_add,
      specStockAt]
  · rw [currentStockScan, productMatches, hscan, foldl_add_eq_sum, zero_add, specStockAt]
    congr 2
    apply List.filter_congr
    intro x hx
    by_cases hsku : x.sku = sku
    · simp [hsku, hts x hx hsku]
    · simp [hsku]

/-- Witness for C1: a two-entry ledger (one product record, one
transaction of quantity 5 at time 1); both projections equal the spec
sum. -/
theorem projection_eq_spec_within_scan_limit_witness :
    historicalStock
        [(⟨.productKey "SKU-1", .prodVal ⟨"SKU-1", "W", none, 1, 5, none, none, 1⟩⟩ : Entry),
         ⟨.transactionKey "s", .txVal ⟨"s", "SKU-1", "IN", 5, "Initial Stock", "u", 1⟩⟩]
        "SKU-1" 1 =
      specStockAt
        [(⟨.productKey "SKU-1", .prodVal ⟨"SKU-1", "W", none, 1, 5, none, none, 1⟩⟩ : Entry),
         ⟨.transactionKey "s", .txVal ⟨"s", "SKU-1", "IN", 5, "Initial Stock", "u", 1⟩⟩]
        "SKU-1" 1 ∧
    currentStockScan
        [(⟨.productKey "SKU-1", .prodVal ⟨"SKU-1", "W", none, 1, 5, none, none, 1⟩⟩ : Entry),
         ⟨.transactionKey "s", .txVal ⟨"s", "SKU-1", "IN", 5, "Initial Stock", "u", 1⟩⟩]
        "SKU-1" =
      specStockAt
        [(⟨.productKey "SKU-1", .prodVal ⟨"SKU-1", "W", none, 1, 5, none, none, 1⟩⟩ : Entry),
         ⟨.transactionKey "s", .txVal ⟨"s", "SKU-1", "IN", 5, "Initial Stock", "u", 1⟩⟩]
        "SKU-1" 9 :=
  projection_eq_spec_within_scan_limit _ "SKU-1" 1 9 (by decide) (by decide)

theorem parse_map_cexEntry (l : List Nat) :
    parseTxEntries (l.map cexEntry) = l.map cexTx := by
  induction l with
  | nil => rfl
  | cons i is ih =>
    have hone : parseTxEntry (cexEntry i) = some (cexTx i) := rfl
    rw [List.map_cons, parseTxEntries, List.filterMap_cons, hone, ← parseTxEntries, ih,
      List.map_cons]

theorem filter_isTxKey_map_cexEntry (l : List Nat) :
    (l.map cexEntry).filter (fun e => e.key.isTxKey) = l.map cexEntry :=
  List.filter_eq_self.mpr (fun a ha => by
    obtain ⟨i, _, rfl⟩ := List.mem_map.mp ha
    rfl)

theorem filter_map_cexTx (l : List Nat) :
    (l.map cexTx).filter (fun x => x.sku == "SKU-1" && decide (x.timestamp ≤ 9)) =
      l.map cexTx :=
  List.filter_eq_self.mpr (fun a ha => by
    obtain ⟨i, _, rfl⟩ := List.mem_map.mp ha
    rfl)

theorem sum_map_cexTx_qc (l : List Nat) :
    ((l.map cexTx).map (·.quantity_change)).sum = (l.length : ℚ) := by
  induction l with
  | nil => simp
  | cons i is ih =>
    rw [List.map_cons, List.map_cons, List.sum_cons, ih, List.length_cons]
    show (1 : ℚ) + is.length = ((is.length + 1 : ℕ) : ℚ)
    push_cast
    ring

/-- Counterexample to C1 as stated: a ledger with 1001 recorded
transactions of `SKU-1` (each of quantity 1).  The projection reads only
the first 1000 scanned entries, so time travel reports stock 1000 from
1000 included transactions, while the sum over all of the SKU's recorded
transactions with `timestamp ≤ T` is 1001. -/
theorem projection_beyond_scan_limit_cex :
    timeTravel cexLedger "SKU-1" 9 = .ok 1000 1000 ∧
    specStockAt cexLedger "SKU-1" 9 = 1001 ∧
    historicalStock cexLedger "SKU-1" 9 ≠ specStockAt cexLedger "SKU-1" 9 := by
  have hprodE : parseTxEntries [(⟨.productKey "SKU-1", .prodVal cexProduct⟩ : Entry)] = [] := rfl
  have hparse : parseTxEntries cexLedger = (List.range 1001).map cexTx := by
    rw [cexLedger, parseTxEntries_append, parse_map_cexEntry, hprodE, List.append_nil]
  have hscan : parseTxEntries (scanTxRegion cexLedger 1000) = (List.range 1000).map cexTx := by
    rw [scanTxRegion, cexLedger, List.filter_append, filter_isTxKey_map_cexEntry]
    have hp : ([(⟨.productKey "SKU-1", .prodVal cexProduct⟩ : Entry)]).filter
        (fun e => e.key.isTxKey) = [] := rfl
    rw [hp, List.append_nil, ← List.map_take, List.take_range]
    have hmin : (1000 : ℕ) ⊓ 1001 = 1000 := by norm_num
    rw [hmin, parse_map_cexEntry]
  have hstock : historicalStock cexLedger "SKU-1" 9 = 1000 := by
    rw [historicalStock, stockFoldUpTo, relevantOf, hscan, filter_map_cexTx,
      foldl_add_eq_sum, zero_add, sum_map_cexTx_qc, List.length_range]
    norm_num
  have hcount : transactionsIncluded cexLedger "SKU-1" 9 = 1000 := by
    rw [transactionsIncluded, relevantTxs, relevantOf, hscan, filter_map_cexTx,
      List.length_map, List.length_range]
  have hspec : specStockAt cexLedger "SKU-1" 9 = 1001 := by
    rw [specStockAt, hparse, filter_map_cexTx, sum_map_cexTx_qc, List.length_range]
    norm_num
  have hget : getProductRecord cexLedger "SKU-1" = some cexProduct := by
    rw [getProductRecord, kvGet, cexLedger, List.reverse_append]
    have : ([(⟨.productKey "SKU-1", .prodVal cexProduct⟩ : Entry)]).reverse ++
        ((List.range 1001).map cexEntry).reverse =
        (⟨.productKey "SKU-1", .prodVal cexProduct⟩ : Entry) ::
          ((List.range 1001).map cexEntry).reverse := rfl
    rw [this, List.find?_cons_of_pos _ (by rfl)]
    rfl
  refine ⟨?_, hspec, ?_⟩
  · simp only [timeTravel, hget, hstock, hcount]
  · rw [hstock, hspec]
    norm_num

/-! ## Claims C6 and C8 -/

theorem kvGet_append_two (kv : List Entry) (e₁ e₂ : Entry) (k : StoreKey)
    (h₂ : (e₂.key == k) = false) (h₁ : (e₁.key == k) = true) :
    kvGet (kv ++ [e₁, e₂]) k = some e₁.value := by
  have hrev : (kv ++ [e₁, e₂]).reverse = e₂ :: e₁ :: kv.reverse := by
    rw [List.reverse_append]
    rfl
  rw [kvGet, hrev]
  simp only [List.find?, h₂, h₁]
  rfl

/-- The success path of `addProduct` on a fresh SKU: validation passes,
the duplicate check finds nothing, and the product record followed by
the seed transaction are appended. -/
theorem addProduct_fresh_eq (kv : List Entry) (inp : ProductInput)
    (uuid actor : String) (tCreated tSeed : Nat) (pr q : ℚ)
    (hsku : inp.sku ≠ "") (hname : inp.name ≠ "")
    (hprice : inp.price = some pr) (hqty : inp.quantity = some q)
    (hfresh : kvGet kv (.productKey inp.sku) = none) :
    addProduct kv inp uuid actor tCreated tSeed =
      (.ok ⟨inp.sku, inp.name, inp.description, pr, q, inp.category, inp.supplier, tCreated⟩
           ⟨uuid, inp.sku, "IN", q, "Initial Stock", actor, tSeed⟩,
       kv ++ [⟨.productKey inp.sku,
               .prodVal ⟨inp.sku, inp.name, inp.description, pr, q,
                 inp.category, inp.supplier, tCreated⟩⟩,
              ⟨.transactionKey uuid,
               .txVal ⟨uuid, inp.sku, "IN", q, "Initial Stock", actor, tSeed⟩⟩]) := by
  have hskub : (inp.sku == "") = false := beq_eq_false_iff_ne.mpr hsku
  have hnameb : (inp.name == "") = false := beq_eq_false_iff_ne.mpr hname
  simp only [addProduct, hprice, hqty, Option.isNone_some, hskub, hnameb,
    Bool.or_false, Bool.false_eq_true, if_false, hfresh]

/-- C6: creating a SKU twice: the first call appends exactly the product
record and one seed transaction; the second call fails with the
duplicate-SKU conflict and writes nothing (the store is returned
unchanged); after the two calls the ledger holds exactly one transaction
for the SKU — the seed. -/
theorem duplicate_sku_rejected_no_write (kv : List Entry) (inp inp2 : ProductInput)
    (u1 u2 a1 a2 : String) (t1 t2 t3 t4 : Nat) (pr q pr2 q2 : ℚ)
    (hsku : inp.sku ≠ "") (hname : inp.name ≠ "")
    (hprice : inp.price = some pr) (hqty : inp.quantity = some q)
    (hsku2 : inp2.sku = inp.sku) (hname2 : inp2.name ≠ "")
    (hprice2 : inp2.price = some pr2) (hqty2 : inp2.quantity = some q2)
    (hfresh : kvGet kv (.productKey inp.sku) = none)
    (hnotx : ∀ x ∈ parseTxEntries kv, x.sku ≠ inp.sku) :
    addProduct kv inp u1 a1 t1 t2 =
      (.ok ⟨inp.sku, inp.name, inp.description, pr, q, inp.category, inp.supplier, t1⟩
           ⟨u1, inp.sku, "IN", q, "Initial Stock", a1, t2⟩,
       kv ++ [⟨.productKey inp.sku,
               .prodVal ⟨inp.sku, inp.name, inp.description, pr, q,
                 inp.category, inp.supplier, t1⟩⟩,
              ⟨.transactionKey u1,
               .txVal ⟨u1, inp.sku, "IN", q, "Initial Stock", a1, t2⟩⟩]) ∧
    addProduct (addProduct kv inp u1 a1 t1 t2).2 inp2 u2 a2 t3 t4 =
      (.duplicate, (addProduct kv inp u1 a1 t1 t2).2) ∧
    (parseTxEntries (addProduct kv inp u1 a1 t1 t2).2).filter
        (fun x => x.sku == inp.sku) =
      [⟨u1, inp.sku, "IN", q, "Initial Stock", a1, t2⟩] := by
  have h1 := addProduct_fresh_eq kv inp u1 a1 t1 t2 pr q hsku hname hprice hqty hfresh
  have hkv' : (addProduct kv inp u1 a1 t1 t2).2 =
      kv ++ [⟨.productKey inp.sku,
              .prodVal ⟨inp.sku, inp.name, inp.description, pr, q,
                inp.category, inp.supplier, t1⟩⟩,
             ⟨.transactionKey u1,
              .txVal ⟨u1, inp.sku, "IN", q, "Initial Stock", a1, t2⟩⟩] := by
    rw [h1]
  refine ⟨h1, ?_, ?_⟩
  · rw [hkv']
    have hget2 : kvGet (kv ++
        [⟨.productKey inp.sku,
          .prodVal ⟨inp.sku, inp.name, inp.description, pr, q,
            inp.category, inp.supplier, t1⟩⟩,
         ⟨.transactionKey u1,
          .txVal ⟨u1, inp.sku, "IN", q, "Initial Stock", a1, t2⟩⟩])
        (.productKey inp2.sku) =
        some (.prodVal ⟨inp.sku, inp.name, inp.description, pr, q,
          inp.category, inp.supplier, t1⟩) :=
      kvGet_append_two kv _ _ _ (by simp) (by simp [hsku2])
    have hskub2 : (inp2.sku == "") = false :=
      beq_eq_false_iff_ne.mpr (by rw [hsku2]; exact hsku)
    have hnameb2 : (inp2.name == "") = false := beq_eq_false_iff_ne.mpr hname2
    simp only [addProduct, hprice2, hqty2, Option.isNone_some, hskub2, hnameb2,
      Bool.or_false, Bool.false_eq_true, if_false, hget2]
  · rw [hkv', parseTxEntries_append]
    have hseed : parseTxEntries
        [(⟨.productKey inp.sku,
           .prodVal ⟨inp.sku, inp.name, inp.description, pr, q,
             inp.category, inp.supplier, t1⟩⟩ : Entry),
         ⟨.transactionKey u1,
          .txVal ⟨u1, inp.sku, "IN", q, "Initial Stock", a1, t2⟩⟩] =
        [⟨u1, inp.sku, "IN", q, "Initial Stock", a1, t2⟩] := rfl
    rw [hseed, List.filter_append]
    have hnil : (parseTxEntries kv).filter (fun x => x.sku == inp.sku) = [] := by
      rw [List.filter_eq_nil_iff]
      intro a ha
      simp [hnotx a ha]
    rw [hnil, List.nil_append]
    simp [List.filter_cons]

/-- Witness for C6: creating `SKU-1` on an empty store and then creating
it again: the second call answers with the duplicate conflict, and the
ledger holds exactly one transaction for `SKU-1`. -/
theorem duplicate_sku_rejected_no_write_witness :
    (addProduct (addProduct ([] : List Entry)
        ⟨"SKU-1", "Widget", none, some 1, some 10, none, none⟩ "u1" "a1" 5 5).2
      ⟨"SKU-1", "Widget", none, some 1, some 10, none, none⟩ "u2" "a2" 6 6).1 = .duplicate ∧
    ((parseTxEntries (addProduct ([] : List Entry)
        ⟨"SKU-1", "Widget", none, some 1, some 10, none, none⟩ "u1" "a1" 5 5).2).filter
      (fun x => x.sku == "SKU-1")).length = 1 := by
  have h := duplicate_sku_rejected_no_write ([] : List Entry)
    ⟨"SKU-1", "Widget", none, some 1, some 10, none, none⟩
    ⟨"SKU-1", "Widget", none, some 1, some 10, none, none⟩
    "u1" "u2" "a1" "a2" 5 5 6 6 1 10 1 10
    (by decide) (by decide) rfl rfl rfl (by decide) rfl rfl rfl
    (by simp [parseTxEntries])
  exact ⟨by rw [h.2.1], by rw [h.2.2]; rfl⟩

/-- C8 (amended): after `addProduct` of a fresh SKU with no earlier
transactions for it and room in the scan limit, querying time travel at
the product's `created_at` returns the seed transaction's
`quantity_change` with exactly one transaction included — *provided* the
seed transaction's timestamp equals `created_at` (the two clock reads of
the handler fall in the same millisecond). -/
theorem timeTravel_at_created_at_seed_only (kv : List Entry) (inp : ProductInput)
    (uuid actor : String) (t : Nat) (pr q : ℚ)
    (hsku : inp.sku ≠ "") (hname : inp.name ≠ "")
    (hprice : inp.price = some pr) (hqty : inp.quantity = some q)
    (hfresh : kvGet kv (.productKey inp.sku) = none)
    (hnotx : ∀ x ∈ parseTxEntries kv, x.sku ≠ inp.sku)
    (hroom : (kv.filter (fun e => e.key.isTxKey)).length + 1 ≤ 1000) :
    (addProduct kv inp uuid actor t t).1 =
      .ok ⟨inp.sku, inp.name, inp.description, pr, q, inp.category, inp.supplier, t⟩
          ⟨uuid, inp.sku, "IN", q, "Initial Stock", actor, t⟩ ∧
    timeTravel (addProduct kv inp uuid actor t t).2 inp.sku t = .ok q 1 := by
  have h1 := addProduct_fresh_eq kv inp uuid actor t t pr q hsku hname hprice hqty hfresh
  set pe : Entry := ⟨.productKey inp.sku,
    .prodVal ⟨inp.sku, inp.name, inp.description, pr, q,
      inp.category, inp.supplier, t⟩⟩ with hpe
  set te : Entry := ⟨.transactionKey uuid,
    .txVal ⟨uuid, inp.sku, "IN", q, "Initial Stock", actor, t⟩⟩ with hte
  have hkv' : (addProduct kv inp uuid actor t t).2 = kv ++ [pe, te] := by rw [h1]
  have hget : getProductRecord (kv ++ [pe, te]) inp.sku =
      some ⟨inp.sku, inp.name, inp.description, pr, q,
        inp.category, inp.supplier, t⟩ := by
    rw [getProductRecord, kvGet_append_two kv pe te _ (by simp [hte]) (by simp [hpe])]
  have hfilter : (kv ++ [pe, te]).filter (fun e => e.key.isTxKey) =
      kv.filter (fun e => e.key.isTxKey) ++ [te] := by
    rw [List.filter_append]
    rfl
  have hscan : scanTxRegion (kv ++ [pe, te]) 1000 =
      kv.filter (fun e => e.key.isTxKey) ++ [te] := by
    rw [scanTxRegion, hfilter]
    exact List.take_of_length_le (by simpa using hroom)
  have hparse : parseTxEntries (scanTxRegion (kv ++ [pe, te]) 1000) =
      parseTxEntries kv ++ [⟨uuid, inp.sku, "IN", q, "Initial Stock", actor, t⟩] := by
    rw [hscan, parseTxEntries_append, parseTxEntries_filter_isTxKey]
    rfl
  have hrel : relevantOf (parseTxEntries kv ++
        [⟨uuid, inp.sku, "IN", q, "Initial Stock", actor, t⟩]) inp.sku t =
      [⟨uuid, inp.sku, "IN", q, "Initial Stock", actor, t⟩] := by
    rw [relevantOf, List.filter_append]
    have hnil : (parseTxEntries kv).filter
        (fun x => x.sku == inp.sku && decide (x.timestamp ≤ t)) = [] := by
      rw [List.filter_eq_nil_iff]
      intro a ha
      simp [hnotx a ha]
    rw [hnil, List.nil_append]
    simp [List.filter_cons]
  refine ⟨by rw [h1], ?_⟩
  rw [hkv', timeTravel, hget]
  simp only [historicalStock, stockFoldUpTo, transactionsIncluded, relevantTxs,
    hparse, hrel]
  rw [List.foldl_cons, List.foldl_nil, List.length_singleton, zero_add]

/-- Witness for C8 (amended): creating `SKU-1` with quantity 10 where
both clock reads give time 5; time travel at 5 reports stock 10 from
exactly one (the seed) transaction. -/
theorem timeTravel_at_created_at_seed_only_witness :
    timeTravel (addProduct ([] : List Entry)
        ⟨"SKU-1", "Widget", none, some 1, some 10, none, none⟩ "u1" "api" 5 5).2
      "SKU-1" 5 = .ok 10 1 :=
  (timeTravel_at_created_at_seed_only ([] : List Entry)
    ⟨"SKU-1", "Widget", none, some 1, some 10, none, none⟩ "u1" "api" 5 1 10
    (by decide) (by decide) rfl rfl rfl (by simp [parseTxEntries]) (by decide)).2

/-- Counterexample to C8 as stated: the handler reads the clock once for
`created_at` (before its store round-trips) and again for the seed
transaction's timestamp (after them).  If the clock has advanced by a
millisecond in between (`created_at = 5`, seed timestamp 6), time travel
at `created_at` filters the seed out and reports stock 0 with no
transactions included, not the seed's `quantity_change` 10. -/
theorem timeTravel_at_created_at_cex :
    (addProduct ([] : List Entry)
        ⟨"SKU-1", "Widget", none, some 1, some 10, none, none⟩ "u1" "api" 5 6).1 =
      .ok ⟨"SKU-1", "Widget", none, 1, 10, none, none, 5⟩
          ⟨"u1", "SKU-1", "IN", 10, "Initial Stock", "api", 6⟩ ∧
    timeTravel (addProduct ([] : List Entry)
        ⟨"SKU-1", "Widget", none, some 1, some 10, none, none⟩ "u1" "api" 5 6).2
      "SKU-1" 5 = .ok 0 0 := by
  have h := addProduct_fresh_eq ([] : List Entry)
    ⟨"SKU-1", "Widget", none, some 1, some 10, none, none⟩ "u1" "api" 5 6 1 10
    (by decide) (by decide) rfl rfl rfl
  refine ⟨by rw [h], ?_⟩
  rw [h]
  rfl

end InventoryLedger
